import Mathlib

/-!
# Verification of the RAMSES-II / evohome protocol pipeline

A shallow embedding of the protocol pipeline of this repository:

* the frame codec (`src/evohome/packet.py`: `split_pkt_line`, `Packet.is_valid`),
* the field helpers and per-code payload parsers (`src/evohome/parsers.py`:
  `_temp`, `_idx`, `parser_decorator`, `parser_1fc9`, `parser_2309`, `parser_30c9`),
* the message-validation step (`src/evohome/message.py`: `Message.is_valid`),
* the bind state machine (exercised by `src/tests_rf/test_rf_bindings_fsm.py`).

Python strings are modelled as `List Char`; machine integers as `Nat`/`Int`;
floats produced by exact decimal divisions as `ℚ`; fallible code (Python
`assert`/exceptions) as `Option`.  Parts of the repository that the sources
do not include (`const.py`, `entity.py`, `bind_state.py`) are modelled from
the specification and are marked as such in their doc comments.
-/

set_option maxRecDepth 8000

namespace Ramses

/-- Shorthand: the `List Char` of a string literal. -/
def cs (s : String) : List Char := s.toList

/-- Python slice `l[a:b]` (for `0 ≤ a ≤ b`). -/
def sliceL (l : List Char) (a b : Nat) : List Char := (l.take b).drop a

/-- Python `str.strip()` (default whitespace set). -/
def stripL (l : List Char) : List Char :=
  ((l.dropWhile Char.isWhitespace).reverse.dropWhile Char.isWhitespace).reverse

/-- Split a list at the first occurrence of `c`: `none` when `c` is absent. -/
def splitFirst (c : Char) : List Char → Option (List Char × List Char)
  | [] => none
  | x :: xs =>
    if x = c then some ([], xs)
    else match splitFirst c xs with
      | none => none
      | some (a, b) => some (x :: a, b)

/-- Python `text.split(char, maxsplit=1)` followed by `.strip()` of both parts,
the second part being `""` when `char` is absent (the inner `_split` of
`split_pkt_line` in `src/evohome/packet.py`). -/
def pySplit1 (text : List Char) (c : Char) : List Char × List Char :=
  match splitFirst c text with
  | none => (stripL text, [])
  | some (a, b) => (stripL a, stripL b)

/-- Decimal value of a digit string (Python `int(s)`; the embedding is only
ever applied to all-digit strings, which the frame regex has checked). -/
def decVal (l : List Char) : Nat :=
  l.foldl (fun a c => a * 10 + (c.toNat - 48)) 0

/-- The hex digits and their values (both cases, as Python `int(s, 16)`). -/
def hexDigitTable : List (Char × Nat) :=
  [('0', 0), ('1', 1), ('2', 2), ('3', 3), ('4', 4), ('5', 5), ('6', 6),
   ('7', 7), ('8', 8), ('9', 9), ('A', 10), ('B', 11), ('C', 12), ('D', 13),
   ('E', 14), ('F', 15), ('a', 10), ('b', 11), ('c', 12), ('d', 13),
   ('e', 14), ('f', 15)]

/-- Value of one hex digit, `none` for a non-hex-digit character. -/
def hexDigit? (c : Char) : Option Nat :=
  (hexDigitTable.find? (fun p => p.1 = c)).map (·.2)

/-- Accumulator loop for `hexVal?`. -/
def hexValAux : List Char → Nat → Option Nat
  | [], a => some a
  | c :: t, a =>
    match hexDigit? c with
    | none => none
    | some d => hexValAux t (a * 16 + d)

/-- Python `int(s, 16)`: `none` (a raised `ValueError`) on the empty string or
on a non-hex character. -/
def hexVal? (l : List Char) : Option Nat :=
  match l with
  | [] => none
  | _ => hexValAux l 0

/-- Substring containment (Python `pat in s`). -/
def containsSeq (pat : List Char) : List Char → Bool
  | [] => pat.isEmpty
  | x :: xs => pat.isPrefixOf (x :: xs) || containsSeq pat xs

/-- Uppercase hex digit (character class `[0-9A-F]`). -/
def isHexUpper (c : Char) : Bool := c.isDigit || ('A' ≤ c && c ≤ 'F')

/-! ## Frame codec (`src/evohome/packet.py`) -/

/-- Embeds `split_pkt_line`: split a raw line into `packet`, `error_text`, `comment`.
The comment part follows `#`, the firmware-error part follows `*`; non-empty
parts are decorated `"* ... "` / `"# ... "` exactly as the source does. -/
def split_pkt_line (packet_line : List Char) : List Char × List Char × List Char :=
  let pc := pySplit1 packet_line '#'
  let pe := pySplit1 pc.1 '*'
  (pe.1,
   if pe.2 ≠ [] then cs "* " ++ pe.2 ++ cs " " else [],
   if pc.2 ≠ [] then cs "# " ++ pc.2 ++ cs " " else [])

/-- A 9-character device address: `TT:NNNNNN` (two decimal digits, a colon,
six decimal digits) or the absent address `--:------`. -/
def isAddrField (l : List Char) : Bool :=
  match l with
  | [a, b, c, d, e, f, g, h, i] =>
    (c = ':') &&
      ((a.isDigit && b.isDigit && d.isDigit && e.isDigit && f.isDigit
          && g.isDigit && h.isDigit && i.isDigit)
        || (a = '-' && b = '-' && d = '-' && e = '-' && f = '-'
          && g = '-' && h = '-' && i = '-'))
  | _ => false

/-- One of the four verbs, 2 characters and space-padded. -/
def isVerbField (l : List Char) : Bool :=
  l = cs " I" || l = cs "RP" || l = cs "RQ" || l = cs " W"

/-- A 3-character field that is all decimal digits, or `---`. -/
def isSeqField (l : List Char) : Bool :=
  l.length = 3 && (l.all Char.isDigit || l = cs "---")

/-- Modelled from the spec: `MESSAGE_REGEX` lives in `evohome/const.py`, which
is not among the sources.  Spec §6 gives the frame shape
`RSS VV SSS aa:aaaaaa bb:bbbbbb cc:cccccc XXXX NNN HH..HH` — RSSI (3 chars),
verb (2), sequence number (3, `---` in the spec's example lines), three
9-character addresses, a 4-hex-digit code, a 3-decimal-digit payload length
and a non-empty hex payload, all separated by single spaces.  The regex
checks shape only; the decimal length/payload agreement is checked separately
(spec §4.1 step 3 lists `excessive_length` and `mismatched_length` as checks
that run after the regex). -/
def message_regex_match (p : List Char) : Bool :=
  decide (50 < p.length) &&
  isSeqField (sliceL p 0 3) &&
  (p.getD 3 'x' = ' ') &&
  isVerbField (sliceL p 4 6) &&
  (p.getD 6 'x' = ' ') &&
  isSeqField (sliceL p 7 10) &&
  (p.getD 10 'x' = ' ') &&
  isAddrField (sliceL p 11 20) &&
  (p.getD 20 'x' = ' ') &&
  isAddrField (sliceL p 21 30) &&
  (p.getD 30 'x' = ' ') &&
  isAddrField (sliceL p 31 40) &&
  (p.getD 40 'x' = ' ') &&
  (sliceL p 41 45).all isHexUpper &&
  (p.getD 45 'x' = ' ') &&
  (sliceL p 46 49).all Char.isDigit &&
  (p.getD 49 'x' = ' ') &&
  (p.drop 50).all isHexUpper

/-- The error tags of `Packet.is_valid`, in the order the source checks them. -/
inductive PktErr where
  | invalid_structure
  | excessive_length
  | mismatched_length
  | missing_address
  | bad_zone_or_domain
deriving DecidableEq, Repr

/-- The leading payload-byte check of `Packet.is_valid`:
`re.match("(0[0-9AB]|21|F[89ABCF])", packet[50:53])`, anchored at the start
of the hex payload (it needs the first two payload characters). -/
def payloadLeadOk (pl : List Char) : Bool :=
  match pl with
  | c0 :: c1 :: _ =>
    (c0 = '0' && decide (c1 ∈ cs "0123456789AB"))
      || (c0 = '2' && c1 = '1')
      || (c0 = 'F' && decide (c1 ∈ cs "89ABCF"))
  | _ => false

/-- The five-way `if/elif` validation chain of `Packet.is_valid`
(`src/evohome/packet.py` lines 84–96), returning the first error or `none`
for a valid packet body. -/
def pkt_error (packet : List Char) : Option PktErr :=
  if message_regex_match packet then
    if 48 < decVal (sliceL packet 46 49) then some .excessive_length
    else if decVal (sliceL packet 46 49) * 2 ≠ (packet.drop 50).length then
      some .mismatched_length
    else if ¬ containsSeq (cs "--:------") packet then some .missing_address
    else if ¬ payloadLeadOk (packet.drop 50) then some .bad_zone_or_domain
    else none
  else some .invalid_structure

/-- The `Packet` object: the fields assigned by `Packet.__init__`
(`packet`, `error_text`, `comment` from `split_pkt_line`, the raw line
`_pkt_line`, and the `_is_valid` cache). -/
structure Packet where
  packet : List Char
  error_text : List Char
  comment : List Char
  pkt_line : List Char
  is_valid_cache : Option Bool
deriving DecidableEq, Repr

/-- The body of the `Packet.is_valid` property when the cache is unset:
null lines, firmware-error lines and comment-only warning lines are invalid;
otherwise the five-way check chain decides. -/
def packet_is_valid_uncached (p : Packet) : Bool :=
  if p.pkt_line = [] then false
  else if p.error_text ≠ [] then false
  else if p.packet = [] ∧ p.comment ≠ [] then false
  else pkt_error p.packet = none

/-- The `Packet.is_valid` property: return the cached result when present,
otherwise run the checks. -/
def Packet.is_valid (p : Packet) : Bool :=
  match p.is_valid_cache with
  | some b => b
  | none => packet_is_valid_uncached p

/-- The packet after the field assignments of `Packet.__init__` but before
`self._is_valid = self.is_valid` runs (cache still unset). -/
def Packet.fresh (raw : List Char) : Packet :=
  { packet := (split_pkt_line raw).1, error_text := (split_pkt_line raw).2.1,
    comment := (split_pkt_line raw).2.2, pkt_line := raw, is_valid_cache := none }

/-- Embeds `Packet.__init__`: decompose the raw line with `split_pkt_line`, then
evaluate `self.is_valid` once (with the cache still unset) and store it in
`self._is_valid`. -/
def Packet.make (raw : List Char) : Packet :=
  { Packet.fresh raw with is_valid_cache := some (Packet.fresh raw).is_valid }

/-- The decimal payload-length field of a packet body (`int(packet[46:49])`). -/
def payloadLenField (packet : List Char) : Nat := decVal (sliceL packet 46 49)

/-- The hex payload of a packet body (`packet[50:]`). -/
def hexPayload (packet : List Char) : List Char := packet.drop 50

/-! ### The specification's view of the validation chain

`spec_first_failure` is written from the spec's words (§4.1 step 3): five
named checks applied in order, the first failure reported.  It is compared
with the source-derived `pkt_error`. -/

/-- The spec's set of legal leading payload bytes: `{00–0B, 21, F8, F9, FA,
FB, FC, FF}` (each as its two-hex-character form). -/
def spec_zone_domain_set : List (List Char) :=
  [cs "00", cs "01", cs "02", cs "03", cs "04", cs "05", cs "06", cs "07",
   cs "08", cs "09", cs "0A", cs "0B", cs "21",
   cs "F8", cs "F9", cs "FA", cs "FB", cs "FC", cs "FF"]

/-- The spec's five checks, in the spec's order, each with its error tag. -/
def spec_checks (packet : List Char) : List (PktErr × Bool) :=
  [(.invalid_structure, message_regex_match packet),
   (.excessive_length, decide (payloadLenField packet ≤ 48)),
   (.mismatched_length, decide (2 * payloadLenField packet = (hexPayload packet).length)),
   (.missing_address, containsSeq (cs "--:------") packet),
   (.bad_zone_or_domain, decide ((hexPayload packet).take 2 ∈ spec_zone_domain_set))]

/-- First entry of the list whose check is false. -/
def firstFailing : List (PktErr × Bool) → Option PktErr
  | [] => none
  | pr :: t => if pr.2 then firstFailing t else some pr.1

/-- First failing check, in the spec's order. -/
def spec_first_failure (packet : List Char) : Option PktErr :=
  firstFailing (spec_checks packet)

/-- The source's leading-payload-byte regex accepts exactly the spec's set
`{00–0B, 21, F8–FC, FF}` of two-character prefixes. -/
theorem payloadLeadOk_eq_spec_set (pl : List Char) :
    payloadLeadOk pl = decide (pl.take 2 ∈ spec_zone_domain_set) := by
  match pl with
  | [] => decide
  | [c0] =>
    rw [Bool.eq_iff_iff]
    simp [payloadLeadOk, spec_zone_domain_set, cs]
  | c0 :: c1 :: rest =>
    rw [Bool.eq_iff_iff]
    simp only [payloadLeadOk, List.take, spec_zone_domain_set, cs, String.toList,
      List.mem_cons, List.not_mem_nil, or_false, List.cons.injEq, and_true,
      Bool.or_eq_true, Bool.and_eq_true, decide_eq_true_eq]
    by_cases h0 : c0 = '0'
    · subst h0; simp +decide
    · by_cases h2 : c0 = '2'
      · subst h2; simp +decide
      · by_cases hF : c0 = 'F'
        · subst hF; simp +decide
        · simp [h0, h2, hF]

/-- The source's `if/elif` chain computes exactly the spec's
first-failing-check, for every packet body. -/
theorem pkt_error_eq_spec_first_failure (packet : List Char) :
    pkt_error packet = spec_first_failure packet := by
  have hz := payloadLeadOk_eq_spec_set (hexPayload packet)
  unfold pkt_error spec_first_failure spec_checks
  unfold payloadLenField hexPayload at hz ⊢
  by_cases h1 : message_regex_match packet = true
  · by_cases h2 : 48 < decVal (sliceL packet 46 49)
    · simp [firstFailing, h1, h2, Nat.not_le.mpr h2]
    · have h2n : decVal (sliceL packet 46 49) ≤ 48 := Nat.not_lt.mp h2
      by_cases h3 : decVal (sliceL packet 46 49) * 2 = (packet.drop 50).length
      · have h3s : 2 * decVal (sliceL packet 46 49) = (packet.drop 50).length := by omega
        by_cases h4 : containsSeq (cs "--:------") packet = true
        · by_cases h5 : payloadLeadOk (packet.drop 50) = true
          · have h5s : (packet.drop 50).take 2 ∈ spec_zone_domain_set := by
              have := hz ▸ h5; exact of_decide_eq_true this
            simp [firstFailing, h1, h2, h2n, h3, h3s, h4, h5, h5s]
          · have h5s : ¬ (packet.drop 50).take 2 ∈ spec_zone_domain_set := by
              intro hmem
              exact h5 (hz.symm ▸ decide_eq_true hmem)
            simp [firstFailing, h1, h2, h2n, h3, h3s, h4, h5, h5s]
        · simp [firstFailing, h1, h2, h2n, h3, h3s, h4]
      · have h3s : ¬ 2 * decVal (sliceL packet 46 49) = (packet.drop 50).length := by
          omega
        simp only [List.length_drop] at h3 h3s
        simp [firstFailing, h1, h2, h2n, h3, h3s]
  · simp [firstFailing, h1]

/-- Reading `Packet.is_valid` on a freshly constructed packet is the uncached chain. -/
theorem make_is_valid (raw : List Char) :
    (Packet.make raw).is_valid = packet_is_valid_uncached (Packet.fresh raw) := rfl

/-- The uncached validity chain, unfolded. -/
theorem packet_is_valid_uncached_iff (p : Packet) :
    packet_is_valid_uncached p = true ↔
      p.pkt_line ≠ [] ∧ p.error_text = [] ∧ ¬(p.packet = [] ∧ p.comment ≠ []) ∧
        pkt_error p.packet = none := by
  unfold packet_is_valid_uncached
  split_ifs with ha hb hc <;> simp_all

/-- A packet body that passes all checks satisfies the two length checks. -/
theorem pkt_error_none_lengths (packet : List Char) (h : pkt_error packet = none) :
    2 * payloadLenField packet = (hexPayload packet).length ∧
      payloadLenField packet ≤ 48 := by
  unfold pkt_error at h
  unfold payloadLenField hexPayload
  split_ifs at h with h1 h2 h3 h4 h5 <;> simp_all <;> omega

/-- A packet body of payload-length field 48 with a matching 96-hex-char
payload (all further checks satisfiable). -/
def line48 : List Char :=
  cs "045 RP --- 01:158182 18:013393 --:------ 1FC9 048 " ++ List.replicate 96 '0'

/-- A packet body of payload-length field 49 with a matching 98-hex-char
payload. -/
def line49 : List Char :=
  cs "045 RP --- 01:158182 18:013393 --:------ 1FC9 049 " ++ List.replicate 98 '0'

/-- The example self-addressed controller broadcast of spec §8 scenario 1. -/
def exLine30C9 : List Char :=
  cs "053  I --- 01:158182 --:------ 01:158182 30C9 006 0007D1010864"

/-- The example `RQ` setpoint request of spec §8 scenario 3. -/
def exLine2309 : List Char :=
  cs "055 RQ --- 12:010740 01:145038 --:------ 2309 003 03073A"

/-- The example bind broadcast of spec §8 scenario 4. -/
def exLine1FC9 : List Char :=
  cs "049  I --- 01:145038 --:------ 01:145038 1FC9 018 07000806368EFC3B0006368E071FC906368E"

/-- C1: for every packet produced by the frame codec, if `is_valid` is
true then twice the decimal payload-length field equals the character length
of the hex payload and the field is at most 48; a line whose field is 48
(with matching hex) passes the length checks and is valid, and one whose
field is 49 is rejected as invalid. -/
theorem packet_valid_length_invariant :
    (∀ raw : List Char, (Packet.make raw).is_valid = true →
        2 * payloadLenField (Packet.make raw).packet =
            (hexPayload (Packet.make raw).packet).length ∧
          payloadLenField (Packet.make raw).packet ≤ 48) ∧
      payloadLenField line48 = 48 ∧ (Packet.make line48).is_valid = true ∧
      payloadLenField line49 = 49 ∧ (Packet.make line49).is_valid = false := by
  refine ⟨?_, by decide, by decide, by decide, by decide⟩
  intro raw h
  rw [make_is_valid, packet_is_valid_uncached_iff] at h
  exact pkt_error_none_lengths _ h.2.2.2

/-- Witness for `packet_valid_length_invariant`: its universally quantified
part applied to the concrete valid line `line48`. -/
theorem packet_valid_length_invariant_check :
    2 * payloadLenField (Packet.make line48).packet =
        (hexPayload (Packet.make line48).packet).length ∧
      payloadLenField (Packet.make line48).packet ≤ 48 :=
  packet_valid_length_invariant.1 line48 (by decide)

/-- C2: for every non-empty, error-free input line (not a comment-only
warning line), `Packet.is_valid` runs the five checks — invalid structure,
excessive length, mismatched length, missing address, bad zone/domain with
lead-byte set `{00–0B, 21, F8, F9, FA, FB, FC, FF}` — in this order,
reporting the first failure, and the packet is valid iff all five pass;
a packet with non-empty `error_text` is always invalid. -/
theorem packet_check_order :
    (∀ raw : List Char, raw ≠ [] → (Packet.make raw).error_text = [] →
        ((Packet.make raw).packet ≠ [] ∨ (Packet.make raw).comment = []) →
        (((Packet.make raw).is_valid = true ↔
            spec_first_failure (Packet.make raw).packet = none) ∧
          pkt_error (Packet.make raw).packet =
            spec_first_failure (Packet.make raw).packet)) ∧
      ∀ raw : List Char, (Packet.make raw).error_text ≠ [] →
        (Packet.make raw).is_valid = false := by
  constructor
  · intro raw hraw herr hwc
    refine ⟨?_, pkt_error_eq_spec_first_failure _⟩
    rw [make_is_valid, packet_is_valid_uncached_iff,
      ← pkt_error_eq_spec_first_failure]
    constructor
    · rintro ⟨-, -, -, h⟩; exact h
    · intro h
      exact ⟨hraw, herr, by tauto, h⟩
  · intro raw herr
    rw [make_is_valid]
    have herr2 : (Packet.fresh raw).error_text ≠ [] := herr
    by_cases hp : (Packet.fresh raw).pkt_line = [] <;>
      simp [packet_is_valid_uncached, hp, herr2]

/-- Witness for `packet_check_order`: applied to the concrete valid line
`exLine30C9`. -/
theorem packet_check_order_check :
    ((Packet.make exLine30C9).is_valid = true ↔
        spec_first_failure (Packet.make exLine30C9).packet = none) ∧
      pkt_error (Packet.make exLine30C9).packet =
        spec_first_failure (Packet.make exLine30C9).packet :=
  packet_check_order.1 exLine30C9 (by decide) (by decide) (Or.inl (by decide))

/-- C10: validity is computed once at construction: the constructor caches
the uncached evaluation, every later read of `is_valid` returns the cached
boolean (a cache hit never re-runs the checks), and the decomposed fields
`packet`/`error_text`/`comment` are exactly those fixed by `split_pkt_line`
at construction (reading `is_valid` is a pure function of the packet and
changes nothing). -/
theorem packet_validity_cached_once :
    (∀ p : Packet, ∀ b : Bool, p.is_valid_cache = some b → p.is_valid = b) ∧
      ∀ raw : List Char,
        (Packet.make raw).is_valid_cache =
            some (packet_is_valid_uncached (Packet.fresh raw)) ∧
          (Packet.make raw).is_valid = packet_is_valid_uncached (Packet.fresh raw) ∧
          (Packet.make raw).packet = (split_pkt_line raw).1 ∧
          (Packet.make raw).error_text = (split_pkt_line raw).2.1 ∧
          (Packet.make raw).comment = (split_pkt_line raw).2.2 :=
  ⟨fun _ _ h => by simp [Packet.is_valid, h], fun _ => ⟨rfl, rfl, rfl, rfl, rfl⟩⟩

/-- Witness for `packet_validity_cached_once`: the cache-hit clause applied to
the concrete packet built from `exLine30C9`. -/
theorem packet_validity_cached_once_check :
    (Packet.make exLine30C9).is_valid =
      packet_is_valid_uncached (Packet.fresh exLine30C9) :=
  packet_validity_cached_once.1 (Packet.make exLine30C9)
    (packet_is_valid_uncached (Packet.fresh exLine30C9)) rfl

/-! ## Field helpers and per-code parsers (`src/evohome/parsers.py`) -/

/-- A parsed payload value: a string, an exact decimal number, a boolean, or
Python `None`. -/
inductive JVal where
  | s (v : List Char)
  | q (v : ℚ)
  | b (v : Bool)
  | null
deriving DecidableEq, Repr

/-- A parsed payload mapping, as ordered key/value pairs (the keys of each
mapping produced by the embedded parsers are pairwise distinct, so a plain
append models Python's `{**a, **b}` merge). -/
abbrev JObj := List (List Char × JVal)

/-- A parser result: one mapping or an array of mappings. -/
inductive Payload where
  | obj (o : JObj)
  | arr (l : List JObj)
deriving DecidableEq, Repr

/-- The message attributes consulted by the payload parsers (`msg.verb`,
`msg.code`, `msg.dev_from`, `msg.dev_dest`, `msg.dev_addr`, `msg.len`,
`msg.is_array`). -/
structure MsgCtx where
  verb : List Char
  code : List Char
  dev_from : List Char
  dev_dest : List Char
  dev_addr : List (List Char)
  len : Nat
  is_array : Bool
deriving DecidableEq, Repr

/-- A Python list comprehension whose element expression may fail: `none` as
soon as one element fails. -/
def mapMO (f : α → Option β) : List α → Option (List β)
  | [] => some []
  | x :: xs =>
    match f x, mapMO f xs with
    | some y, some ys => some (y :: ys)
    | _, _ => none

/-- The offsets visited by Python `range(0, stop, step)` (for `step > 0`). -/
def pyRange (stop step : Nat) : List Nat :=
  (List.range ((stop + step - 1) / step)).map (· * step)

/-- Modelled from the spec: the keys of `const.DOMAIN_TYPE_MAP`
(`evohome/const.py` is not among the sources).  Spec §4.1 and §4.4 give the
domain ids that appear as a leading payload byte: `F8, F9, FA, FB, FC, FF`.
(None of the claims' inputs start with an `Fx` byte other than `FC`, which
all candidate readings of the spec include.) -/
def DOMAIN_TYPE_MAP_keys : List (List Char) :=
  [cs "F8", cs "F9", cs "FA", cs "FB", cs "FC", cs "FF"]

/-- Embeds `CODES_WITH_ZONE_IDX` (`src/evohome/parsers.py` lines 17–27). -/
def CODES_WITH_ZONE_IDX : List (List Char) :=
  [cs "0004", cs "0008", cs "0009", cs "000C", cs "1030", cs "1060",
   cs "12B0", cs "2349", cs "3150"]

/-- Step 2 of `_idx`: decide whether an index is emitted at all, given the
index name chosen in step 1. -/
def idxEmit (idx_name seqx : List Char) (msg : MsgCtx) : JObj :=
  if msg.dev_from.take 2 = cs "18" then [(idx_name, .s seqx)]
  else if msg.code = cs "1FC9" then []
  else if msg.dev_from.take 2 = cs "01" ∧ msg.dev_from = msg.dev_dest then
    [(idx_name, .s seqx)]
  else if (msg.dev_from.take 2 = cs "01" ∨ msg.dev_dest.take 2 = cs "01") ∧
      msg.dev_from ≠ msg.dev_dest then
    [(idx_name, .s seqx)]
  else if msg.dev_from.take 2 ∈ [cs "02"] then [(idx_name, .s seqx)]
  else []

/-- Embeds `_idx` (`src/evohome/parsers.py` lines 149–223): classify the leading
payload byte as a domain id, log index, ufh index, zone index / parent index,
vent id, other id or no index; `none` models a failed `assert` (or the
`ValueError` of `int()` on a non-hex byte). -/
def _idx (seqx : List Char) (msg : MsgCtx) : Option JObj :=
  if seqx ∈ DOMAIN_TYPE_MAP_keys then some (idxEmit (cs "domain_id") seqx msg)
  else if msg.code = cs "0418" then
    match hexVal? seqx with
    | some v => if v < 64 then some [(cs "log_idx", .s seqx)] else none
    | none => none
  else if msg.code = cs "0016" ∧
      msg.dev_addr.any (fun d => d.take 2 = cs "12" ∨ d.take 2 = cs "22") then
    match hexVal? seqx with
    | some v =>
      if v < 12 then
        some (idxEmit
          (if msg.dev_from.take 2 = cs "01" then cs "zone_idx" else cs "parent_idx")
          seqx msg)
      else none
    | none => none
  else if msg.code = cs "2E04" then some []
  else if msg.code = cs "22C9" ∧ msg.dev_from.take 2 = cs "02" then
    match hexVal? seqx with
    | some v => if v < 8 then some (idxEmit (cs "ufh_idx") seqx msg) else none
    | none => none
  else if msg.code ∈ CODES_WITH_ZONE_IDX ++
      [cs "000A", cs "2309", cs "30C9", cs "0404", cs "1FC9"] then
    match hexVal? seqx with
    | some v =>
      if v < 12 then
        some (idxEmit
          (if msg.dev_from.take 2 ∈ [cs "01", cs "02", cs "18"] then cs "zone_idx"
           else cs "parent_idx")
          seqx msg)
      else none
    | none => none
  else if msg.code ∈ [cs "31D9", cs "31DA"] then
    if seqx = cs "00" ∨ seqx = cs "21" then some [(cs "vent_id", .s seqx)] else none
  else
    match hexVal? seqx with
    | some v =>
      if ¬ v < 12 then some (idxEmit (cs "other_id") seqx msg)
      else if seqx = cs "00" then some [] else none
    | none => none

/-- The values `_temp` can produce: Python `None`, Python `False`
(`7EFF`, the setpoint-disabled sentinel) or an exact decimal number. -/
inductive TempVal where
  | null
  | disabled
  | val (q : ℚ)
deriving DecidableEq, Repr

/-- The 16-bit two's-complement reading of a value below `2 ^ 16`. -/
def twosComp16 (n : Nat) : Int :=
  if n < 2 ^ 15 then (n : Int) else (n : Int) - 2 ^ 16

/-- An integer number of hundredths, as an exact rational (the Python float
`i / 100` is exact for every value the parsers produce). -/
def centi (i : Int) : ℚ := (i : ℚ) / 100

/-- Embeds `_temp` (`src/evohome/parsers.py` lines 274–282): 4 hex chars; `7FFF` is
null, `7EFF` is the setpoint-disabled sentinel, otherwise the 16-bit
two's-complement value divided by 100. -/
def _temp (seqx : List Char) : Option TempVal :=
  if seqx.length ≠ 4 then none
  else if seqx = cs "7FFF" then some .null
  else if seqx = cs "7EFF" then some .disabled
  else (hexVal? seqx).map (fun n => .val (centi (twosComp16 n)))

/-- The dictionary value a `TempVal` contributes. -/
def TempVal.toJVal : TempVal → JVal
  | .null => .null
  | .disabled => .b false
  | .val q => .q q

/-- Modelled from the spec: `dev_hex_to_id` lives in `evohome/entity.py`,
which is not among the sources.  Spec §4.2: a device id is the 24-bit value
`(type << 18) | serial`, rendered `TT:NNNNNN` with a 2-digit type and a
6-digit zero-padded decimal serial. -/
def dev_hex_to_id (h : List Char) : Option (List Char) :=
  (hexVal? h).map fun n =>
    let t := Nat.toDigits 10 (n / 2 ^ 18)
    let s := Nat.toDigits 10 (n % 2 ^ 18)
    (List.replicate (2 - t.length) '0' ++ t) ++ [':'] ++
      (List.replicate (6 - s.length) '0' ++ s)

/-- The inner `_parser` of `parser_1fc9`: a 6-byte element `seqx` must carry
the same device-id hex as the first element (`seqx[6:] == payload[6:12]`) and
a legal domain/zone byte; it yields the one-pair mapping
`{seqx[:2]: seqx[2:6]}`. -/
def parser_1fc9_elem (payload seqx : List Char) : Option JObj :=
  if seqx.drop 6 ≠ sliceL payload 6 12 then none
  else if seqx.take 2 ∈ [cs "FA", cs "FB", cs "FC"] then
    some [(seqx.take 2, .s (sliceL seqx 2 6))]
  else
    match hexVal? (seqx.take 2) with
    | some v =>
      if v < 12 then some [(seqx.take 2, .s (sliceL seqx 2 6))] else none
    | none => none

/-- Embeds `parser_1fc9` (`src/evohome/parsers.py` lines 736–757): for `W` a single
6-byte triple, otherwise an array of 6-byte triples; the source address must
equal the device id embedded in the payload. -/
def parser_1fc9 (payload : List Char) (msg : MsgCtx) : Option Payload :=
  if msg.verb = cs " W" then
    if msg.len = 6 ∧ dev_hex_to_id (sliceL payload 6 12) = some msg.dev_from then
      (parser_1fc9_elem payload payload).map .obj
    else none
  else
    if (msg.verb ∈ [cs " I", cs " W", cs "RP"]) ∧
        (6 ≤ msg.len ∧ msg.len % 6 = 0) ∧
        dev_hex_to_id (sliceL payload 6 12) = some msg.dev_from then
      (mapMO (fun i => parser_1fc9_elem payload (sliceL payload i (i + 12)))
        (pyRange payload.length 12)).map .arr
    else none

/-- The inner `_parser` of `parser_2309`: a zone byte below 12, the index
mapping merged with the decoded setpoint. -/
def parser_2309_elem (seqx : List Char) (msg : MsgCtx) : Option JObj :=
  match hexVal? (seqx.take 2) with
  | some v =>
    if v < 12 then
      match _idx (seqx.take 2) msg, _temp (seqx.drop 2) with
      | some i, some t => some (i ++ [(cs "setpoint", t.toJVal)])
      | _, _ => none
    else none
  | none => none

/-- Embeds `parser_2309` (`src/evohome/parsers.py`): setpoint of a device or of all
zones (array form for a controller broadcast). -/
def parser_2309 (payload : List Char) (msg : MsgCtx) : Option Payload :=
  if ¬ (msg.verb ∈ [cs " I", cs "RP", cs " W"]) then none
  else if msg.is_array then
    if 3 ≤ msg.len ∧ msg.len % 3 = 0 then
      (mapMO (fun i => parser_2309_elem (sliceL payload i (i + 6)) msg)
        (pyRange payload.length 6)).map .arr
    else none
  else if msg.len = 3 then (parser_2309_elem payload msg).map .obj
  else none

/-- The inner `_parser` of `parser_30c9`: a zone byte below 12, the index
mapping merged with the decoded temperature. -/
def parser_30c9_elem (seqx : List Char) (msg : MsgCtx) : Option JObj :=
  match hexVal? (seqx.take 2) with
  | some v =>
    if v < 12 then
      match _idx (seqx.take 2) msg, _temp (seqx.drop 2) with
      | some i, some t => some (i ++ [(cs "temperature", t.toJVal)])
      | _, _ => none
    else none
  | none => none

/-- Embeds `parser_30c9` (`src/evohome/parsers.py` lines 871–884): temperature of a
device or of all zones (array form for a controller broadcast). -/
def parser_30c9 (payload : List Char) (msg : MsgCtx) : Option Payload :=
  if msg.is_array then
    if 3 ≤ msg.len ∧ msg.len % 3 = 0 then
      (mapMO (fun i => parser_30c9_elem (sliceL payload i (i + 6)) msg)
        (pyRange payload.length 6)).map .arr
    else none
  else if msg.len = 3 then (parser_30c9_elem payload msg).map .obj
  else none

/-- Merge `{**_idx(payload[:2], msg), **result}` when the inner parser
returned a mapping; arrays are passed through unchanged. -/
def mergeIdxResult (payload : List Char) (msg : MsgCtx) :
    Option Payload → Option Payload
  | some (.arr l) => some (.arr l)
  | some (.obj o) => (_idx (payload.take 2) msg).map (fun i => .obj (i ++ o))
  | none => none

/-- Embeds `parser_decorator` (`src/evohome/parsers.py` lines 31–146): the wrapper
around every per-code parser.  `W` payloads are screened; `I`/`RP` results
get the index prefix merged; `RQ` requests are mostly short-circuited to an
index-only mapping without invoking the wrapped parser. -/
def wrapParser (func : List Char → MsgCtx → Option Payload)
    (payload : List Char) (msg : MsgCtx) : Option Payload :=
  if msg.verb = cs " W" then
    if msg.code ∈ [cs "0001"] then func payload msg
    else if msg.code ∈ [cs "2309", cs "2349"] ∧
        msg.dev_from.take 2 ∈ [cs "12", cs "22", cs "34"] then
      match hexVal? (payload.take 2) with
      | some v => if v < 12 then func payload msg else none
      | none => none
    else if msg.code = cs "1F09" then
      if payload.take 2 = cs "F8" then func payload msg else none
    else if msg.code ∈ [cs "1FC9"] then func payload msg
    else if payload.take 2 ∈ [cs "00", cs "FC"] then func payload msg
    else none
  else if msg.verb ≠ cs "RQ" then mergeIdxResult payload msg (func payload msg)
  else if msg.code = cs "0004" then
    if msg.len = 2 then (_idx (payload.take 2) msg).map .obj else none
  else if msg.code = cs "0005" then
    if payload.length = 4 then some (.obj [(cs "zone_id", .s (payload.take 2))])
    else none
  else if msg.code = cs "0009" then (_idx (payload.take 2) msg).map .obj
  else if msg.code ∈ [cs "000A", cs "2309"] ∧ msg.dev_from.take 2 = cs "34" then
    if payload.length = 2 then (_idx (payload.take 2) msg).map .obj else none
  else if msg.code ∈ [cs "000A", cs "2309"] ∧
      msg.dev_from.take 2 ∈ [cs "12", cs "22"] then
    if msg.code = cs "000A" then
      if payload.length = 12 then (_idx (payload.take 2) msg).map .obj else none
    else (_idx (payload.take 2) msg).map .obj
  else if msg.code ∈ [cs "000C", cs "12B0", cs "2349"] ++
      [cs "000A", cs "2309", cs "30C9"] then
    match hexVal? (payload.take 2) with
    | some v =>
      if v < 12 ∧ msg.len < 3 then (_idx (payload.take 2) msg).map .obj else none
    | none => none
  else if msg.code = cs "0016" ∧ msg.dev_from.take 2 ∈ [cs "12", cs "22"] then
    match hexVal? (payload.take 2) with
    | some v =>
      if payload.length = 4 ∧ v < 12 then
        match _idx (payload.take 2) msg, func payload msg with
        | some i, some (.obj o) => some (.obj (i ++ o))
        | _, _ => none
      else none
    | none => none
  else if msg.code = cs "0100" then
    if payload.length = 2 ∨ payload.length = 10 then func payload msg else none
  else if msg.code = cs "0404" then
    match _idx (payload.take 2) msg, func payload msg with
    | some i, some (.obj o) => some (.obj (i ++ o))
    | _, _ => none
  else if msg.code = cs "0418" then
    if payload.length = 6 ∧ payload.take 4 = cs "0000" then
      match hexVal? (sliceL payload 4 6) with
      | some v =>
        if v ≤ 63 then some (.obj [(cs "log_idx", .s (sliceL payload 4 6))])
        else none
      | none => none
    else none
  else if msg.code = cs "10A0" ∧ msg.dev_from.take 2 = cs "07" then func payload msg
  else if msg.code = cs "1100" then
    if payload.take 2 ∈ [cs "00", cs "FC"] then
      if 2 < msg.len then func payload msg
      else (_idx (payload.take 2) msg).map .obj
    else none
  else if msg.code ∈ [cs "12B0", cs "2E04"] then some (.obj [])
  else if msg.code ∈ [cs "1F09"] then
    if payload = cs "00" ∨ payload = cs "99" then some (.obj []) else none
  else if msg.code = cs "3220" then func payload msg
  else if msg.code ∈ [cs "31D9", cs "31DA"] then
    if msg.len = 1 then (_idx (payload.take 2) msg).map .obj else none
  else if msg.code = cs "3EF1" then
    if payload = cs "0000" then some (.obj []) else none
  else if payload = cs "00" then some (.obj [])
  else func payload msg

/-- Modelled from the spec: the `Message.is_array` attribute consulted by the
array-capable parsers is computed in a `message.py` revision that is not
among the sources.  Spec §4.4 (ambiguity rule) and §3 (array codes): a
payload is an array exactly for a self-directed ` I` broadcast from a
controller under one of the array codes `000A, 2309, 30C9, 22C9, 1FC9,
0009`. -/
def msg_is_array (verb code dev_from dev_dest : List Char) : Bool :=
  verb = cs " I" && dev_from.take 2 = cs "01" && dev_from = dev_dest &&
    decide (code ∈ [cs "000A", cs "2309", cs "30C9", cs "22C9", cs "1FC9", cs "0009"])

/-- Embeds `NON_DEV_ID`, the absent address. -/
def NON_DEV_ID : List Char := cs "--:------"

/-- The address-resolution of `Message.__init__` (`src/evohome/message.py`
lines 37–61), restricted to its first, normal branch (`device_id[0]`
present, as in every claim input): `device_from` is the first address and
`device_dest` the second, falling back to the third. -/
def msgDevFrom (packet : List Char) : List Char := sliceL packet 11 20

/-- The destination address resolved by `Message.__init__`. -/
def msgDevDest (packet : List Char) : List Char :=
  if sliceL packet 21 30 ≠ NON_DEV_ID then sliceL packet 21 30
  else sliceL packet 31 40

/-- Build the parser-facing message context from a packet body
(`Message.__init__`: `verb = packet[4:6]`, `code = packet[41:45]`,
`len = int(packet[46:49])`, addresses at 11/21/31). -/
def mkMsgCtx (packet : List Char) : MsgCtx :=
  { verb := sliceL packet 4 6,
    code := sliceL packet 41 45,
    dev_from := msgDevFrom packet,
    dev_dest := msgDevDest packet,
    dev_addr := [sliceL packet 11 20, sliceL packet 21 30, sliceL packet 31 40],
    len := decVal (sliceL packet 46 49),
    is_array := msg_is_array (sliceL packet 4 6) (sliceL packet 41 45)
      (msgDevFrom packet) (msgDevDest packet) }

/-- Run a wrapped parser on the payload of a packet body. -/
def parsePacketWith (func : List Char → MsgCtx → Option Payload)
    (packet : List Char) : Option Payload :=
  wrapParser func (hexPayload packet) (mkMsgCtx packet)

/-! ### Lemmas about the helper combinators -/

/-- Any hex digit's value is at most 15. -/
theorem hexDigit_le (c : Char) (d : Nat) (h : hexDigit? c = some d) : d ≤ 15 := by
  unfold hexDigit? at h
  cases hf : hexDigitTable.find? (fun p => p.1 = c) with
  | none => rw [hf] at h; cases h
  | some p =>
    rw [hf] at h
    have hm : p ∈ hexDigitTable := List.mem_of_find?_eq_some hf
    have hall : ∀ q ∈ hexDigitTable, q.2 ≤ 15 := by decide
    have := hall p hm
    simp at h
    omega

/-- The accumulator loop of `hexVal?` is bounded. -/
theorem hexValAux_lt (l : List Char) :
    ∀ a n : Nat, hexValAux l a = some n → n < (a + 1) * 16 ^ l.length := by
  induction l with
  | nil =>
    intro a n h
    simp only [hexValAux, Option.some.injEq] at h
    simp [← h]
  | cons c t ih =>
    intro a n h
    unfold hexValAux at h
    cases hd : hexDigit? c with
    | none => rw [hd] at h; cases h
    | some d =>
      rw [hd] at h
      have hb := ih (a * 16 + d) n h
      have hdle := hexDigit_le c d hd
      have hstep : (a * 16 + d + 1) * 16 ^ t.length ≤ (a + 1) * 16 ^ (c :: t).length := by
        simp only [List.length_cons, pow_succ]
        calc (a * 16 + d + 1) * 16 ^ t.length
            ≤ ((a + 1) * 16) * 16 ^ t.length := by
              exact Nat.mul_le_mul_right _ (by omega)
          _ = (a + 1) * (16 ^ t.length * 16) := by ring
      exact lt_of_lt_of_le hb hstep

/-- Python `int(s, 16)` of an `n`-character string is below `16 ^ n`. -/
theorem hexVal_lt (l : List Char) (n : Nat) (h : hexVal? l = some n) :
    n < 16 ^ l.length := by
  cases l with
  | nil => cases h
  | cons c t =>
    have := hexValAux_lt (c :: t) 0 n h
    simpa using this

/-- A successful `mapMO` keeps the list length. -/
theorem mapMO_length (f : α → Option β) :
    ∀ xs : List α, ∀ ys : List β, mapMO f xs = some ys → ys.length = xs.length := by
  intro xs
  induction xs with
  | nil => intro ys h; simp only [mapMO, Option.some.injEq] at h; simp [← h]
  | cons x t ih =>
    intro ys h
    unfold mapMO at h
    cases hx : f x with
    | none => rw [hx] at h; cases h
    | some y =>
      rw [hx] at h
      cases ht : mapMO f t with
      | none => rw [ht] at h; cases h
      | some ys0 =>
        rw [ht] at h
        simp only [Option.some.injEq] at h
        have := ih ys0 ht
        simp [← h, this]

/-- A successful `mapMO` means every element succeeded. -/
theorem mapMO_mem (f : α → Option β) :
    ∀ xs : List α, ∀ ys : List β, mapMO f xs = some ys →
      ∀ x ∈ xs, ∃ y, f x = some y := by
  intro xs
  induction xs with
  | nil => intro ys _ x hx; cases hx
  | cons z t ih =>
    intro ys h x hx
    unfold mapMO at h
    cases hz : f z with
    | none => rw [hz] at h; cases h
    | some y =>
      rw [hz] at h
      cases ht : mapMO f t with
      | none => rw [ht] at h; cases h
      | some ys0 =>
        rcases List.mem_cons.mp hx with rfl | hxt
        · exact ⟨y, hz⟩
        · exact ih ys0 ht x hxt

/-- A successful element of `parser_1fc9` carries the same device-id hex as
the first element. -/
theorem parser_1fc9_elem_id (payload seqx : List Char) (o : JObj)
    (h : parser_1fc9_elem payload seqx = some o) :
    seqx.drop 6 = sliceL payload 6 12 := by
  unfold parser_1fc9_elem at h
  by_cases hne : seqx.drop 6 ≠ sliceL payload 6 12
  · rw [if_pos hne] at h; cases h
  · tauto

/-! ### The claims about field helpers and parsers -/

/-- C4: `_temp` decodes a 4-hex-digit string as a 16-bit two's-complement
integer divided by 100; `7FFF` decodes to null, `7EFF` to the
setpoint-disabled sentinel, `8000` to −327.68 and `7FFE` to +327.66. -/
theorem temp_twos_complement_boundaries :
    (∀ s : List Char, ∀ q : ℚ, _temp s = some (.val q) →
        s.length = 4 ∧ ∃ n : Nat, hexVal? s = some n ∧ n < 2 ^ 16 ∧
          q = centi (twosComp16 n)) ∧
      _temp (cs "7FFF") = some .null ∧ _temp (cs "7EFF") = some .disabled ∧
      _temp (cs "8000") = some (.val (-32768 / 100)) ∧
      _temp (cs "7FFE") = some (.val (32766 / 100)) := by
  refine ⟨?_, rfl, rfl, ?_, ?_⟩
  · intro s q h
    unfold _temp at h
    by_cases h1 : s.length ≠ 4
    · rw [if_pos h1] at h; cases h
    rw [if_neg h1] at h
    by_cases h2 : s = cs "7FFF"
    · rw [if_pos h2] at h; simp at h
    rw [if_neg h2] at h
    by_cases h3 : s = cs "7EFF"
    · rw [if_pos h3] at h; simp at h
    rw [if_neg h3] at h
    cases hv : hexVal? s with
    | none => rw [hv] at h; cases h
    | some n =>
      rw [hv] at h
      simp only [Option.map_some', Option.some.injEq, TempVal.val.injEq] at h
      have hlen : s.length = 4 := by omega
      have hb := hexVal_lt s n hv
      rw [hlen] at hb
      exact ⟨hlen, n, rfl, by norm_num at hb ⊢; omega, h.symm⟩
  · rw [show _temp (cs "8000") = some (.val (centi (-32768))) from rfl]
    norm_num [centi]
  · rw [show _temp (cs "7FFE") = some (.val (centi 32766)) from rfl]
    norm_num [centi]

/-- Witness for `temp_twos_complement_boundaries`: its universally quantified
clause applied at the concrete input `8000`. -/
theorem temp_twos_complement_boundaries_check :
    (cs "8000").length = 4 ∧ ∃ n : Nat, hexVal? (cs "8000") = some n ∧
      n < 2 ^ 16 ∧ centi (twosComp16 32768) = centi (twosComp16 n) :=
  temp_twos_complement_boundaries.1 (cs "8000") (centi (twosComp16 32768)) rfl

/-- The parsed payload of the spec's `1FC9` example: one single-pair mapping
per 6-byte wire triple. -/
def exPayload1FC9 : List JObj :=
  [[(cs "07", .s (cs "0008"))], [(cs "FC", .s (cs "3B00"))],
   [(cs "07", .s (cs "1FC9"))]]

/-- C5: `parser_1fc9` with verb ` I`/`RP` succeeds only when the payload
is a non-empty sequence of 6-byte triples and the source address equals the
embedded device id; it returns one mapping per triple, each triple carrying
the source's device id.  With verb ` W` it succeeds only on exactly one
triple whose embedded id is the source.  The 18-byte example payload parses
to three mappings, the embedded id decoding to `01:145038`. -/
theorem parser_1fc9_shape :
    (∀ (payload : List Char) (msg : MsgCtx) (r : Payload),
        msg.verb = cs " I" ∨ msg.verb = cs "RP" →
        parser_1fc9 payload msg = some r →
        (6 ≤ msg.len ∧ msg.len % 6 = 0 ∧
            dev_hex_to_id (sliceL payload 6 12) = some msg.dev_from) ∧
          ∃ l : List JObj, r = .arr l ∧
            (2 * msg.len = payload.length → l.length = msg.len / 6) ∧
            ∀ i ∈ pyRange payload.length 12,
              dev_hex_to_id ((sliceL payload i (i + 12)).drop 6) =
                some msg.dev_from) ∧
      (∀ (payload : List Char) (msg : MsgCtx) (r : Payload),
        msg.verb = cs " W" → parser_1fc9 payload msg = some r →
        msg.len = 6 ∧ dev_hex_to_id (sliceL payload 6 12) = some msg.dev_from ∧
          ∃ o : JObj, r = .obj o) ∧
      parsePacketWith parser_1fc9 exLine1FC9 = some (.arr exPayload1FC9) ∧
      dev_hex_to_id (cs "06368E") = some (cs "01:145038") := by
  refine ⟨?_, ?_, by decide, by decide⟩
  · intro payload msg r hverb hp
    unfold parser_1fc9 at hp
    have hW : ¬ msg.verb = cs " W" := by
      rcases hverb with h | h <;> rw [h] <;> decide
    rw [if_neg hW] at hp
    by_cases hcond : (msg.verb ∈ [cs " I", cs " W", cs "RP"]) ∧
        (6 ≤ msg.len ∧ msg.len % 6 = 0) ∧
        dev_hex_to_id (sliceL payload 6 12) = some msg.dev_from
    · rw [if_pos hcond] at hp
      cases hm : mapMO (fun i => parser_1fc9_elem payload (sliceL payload i (i + 12)))
          (pyRange payload.length 12) with
      | none => rw [hm] at hp; cases hp
      | some l =>
        rw [hm] at hp
        simp only [Option.map_some', Option.some.injEq] at hp
        refine ⟨⟨hcond.2.1.1, hcond.2.1.2, hcond.2.2⟩, l, hp.symm, ?_, ?_⟩
        · intro hlen
          have h1 := mapMO_length _ _ _ hm
          have h2 : (pyRange payload.length 12).length = (payload.length + 11) / 12 := by
            simp [pyRange]
          omega
        · intro i hi
          obtain ⟨o, ho⟩ := mapMO_mem _ _ _ hm i hi
          rw [parser_1fc9_elem_id payload _ o ho]
          exact hcond.2.2
    · rw [if_neg hcond] at hp; cases hp
  · intro payload msg r hverb hp
    unfold parser_1fc9 at hp
    rw [if_pos hverb] at hp
    by_cases hcond : msg.len = 6 ∧
        dev_hex_to_id (sliceL payload 6 12) = some msg.dev_from
    · rw [if_pos hcond] at hp
      cases he : parser_1fc9_elem payload payload with
      | none => rw [he] at hp; cases hp
      | some o =>
        rw [he] at hp
        simp only [Option.map_some', Option.some.injEq] at hp
        exact ⟨hcond.1, hcond.2, o, hp.symm⟩
    · rw [if_neg hcond] at hp; cases hp

/-- Witness for `parser_1fc9_shape`: its ` I`/`RP` clause applied to the
concrete example payload and message context. -/
theorem parser_1fc9_shape_check :
    (6 ≤ (mkMsgCtx exLine1FC9).len ∧ (mkMsgCtx exLine1FC9).len % 6 = 0 ∧
        dev_hex_to_id (sliceL (hexPayload exLine1FC9) 6 12) =
          some (mkMsgCtx exLine1FC9).dev_from) ∧
      ∃ l : List JObj, (Payload.arr exPayload1FC9) = .arr l ∧
        (2 * (mkMsgCtx exLine1FC9).len = (hexPayload exLine1FC9).length →
          l.length = (mkMsgCtx exLine1FC9).len / 6) ∧
        ∀ i ∈ pyRange (hexPayload exLine1FC9).length 12,
          dev_hex_to_id ((sliceL (hexPayload exLine1FC9) i (i + 12)).drop 6) =
            some (mkMsgCtx exLine1FC9).dev_from :=
  parser_1fc9_shape.1 (hexPayload exLine1FC9) (mkMsgCtx exLine1FC9)
    (.arr exPayload1FC9) (Or.inl (by decide)) (by decide)

/-- C6 (amended): for the input
`055 RQ --- 12:010740 01:145038 --:------ 2309 003 03073A` the verb
prefilter short-circuits — the result does not depend on the wrapped parser
body at all — and the payload is exactly `{"parent_idx": "03"}` (the source
device type `12` is not a controller/ufh/gateway, so `_idx` names the byte
`parent_idx`, not `zone_idx`). -/
theorem rq_prefilter_2309_short_circuit :
    ∀ func : List Char → MsgCtx → Option Payload,
      parsePacketWith func exLine2309 =
        some (.obj [(cs "parent_idx", .s (cs "03"))]) :=
  fun _ => rfl

/-- C6 counterexample: on the claimed input the dispatcher returns
`{"parent_idx": "03"}`, which is not the claimed `{"zone_idx": "03"}`. -/
theorem rq_prefilter_2309_zone_idx_refuted :
    parsePacketWith parser_2309 exLine2309 =
        some (.obj [(cs "parent_idx", .s (cs "03"))]) ∧
      parsePacketWith parser_2309 exLine2309 ≠
        some (.obj [(cs "zone_idx", .s (cs "03"))]) :=
  ⟨by decide, by decide⟩

/-- The parsed payload of the spec's `30C9` example: zone `00` at 20.01 °C
and zone `01` at 21.48 °C (`0x0864 = 2148`). -/
def exPayload30C9 : List JObj :=
  [[(cs "zone_idx", .s (cs "00")), (cs "temperature", .q (centi 2001))],
   [(cs "zone_idx", .s (cs "01")), (cs "temperature", .q (centi 2148))]]

/-- C7 (amended): the self-addressed controller broadcast
` I --- 01:158182 --:------ 01:158182 30C9 006 0007D1010864` is a valid
packet and parses to an array of exactly 2 mappings, the first
`{zone_idx: "00", temperature: 20.01}` and the second
`{zone_idx: "01", temperature: 21.48}`. -/
theorem parser_30c9_example :
    (Packet.make exLine30C9).is_valid = true ∧
      parsePacketWith parser_30c9 exLine30C9 = some (.arr exPayload30C9) ∧
      centi 2001 = 2001 / 100 ∧ centi 2148 = 2148 / 100 := by
  refine ⟨by decide, rfl, ?_, ?_⟩ <;> norm_num [centi]

/-- C7 counterexample: the second entry of the parsed array is
`{zone_idx: "01", temperature: 21.48}`, not the claimed temperature 21.80
(the hex `0864` is 2148, not 2180). -/
theorem parser_30c9_example_refuted :
    parsePacketWith parser_30c9 exLine30C9 = some (.arr exPayload30C9) ∧
      parsePacketWith parser_30c9 exLine30C9 ≠
        some (.arr [[(cs "zone_idx", .s (cs "00")), (cs "temperature", .q (2001 / 100))],
          [(cs "zone_idx", .s (cs "01")), (cs "temperature", .q (2180 / 100))]]) := by
  refine ⟨rfl, ?_⟩
  rw [show parsePacketWith parser_30c9 exLine30C9 = some (.arr exPayload30C9) from rfl]
  intro h
  simp only [Option.some.injEq, Payload.arr.injEq, exPayload30C9, List.cons.injEq,
    Prod.mk.injEq, JVal.q.injEq] at h
  have h2 : centi 2148 = 2180 / 100 := h.2.1.2.1.2
  norm_num [centi] at h2

/-! ## Message state updates (`src/evohome/message.py`, `Message.is_valid`) -/

/-- The mutable system state consulted and updated by `Message.is_valid`
(`self._evo.ctl_id`, `self._evo._num_zones`, `self._evo._prev_code`).
`_num_zones` is a Python float (true division), exact here as `ℚ`. -/
structure EvoState where
  ctl_id : Option (List Char)
  num_zones : Option ℚ
  prev_code : Option (List Char)
deriving DecidableEq, Repr

/-- The message fields consulted by the state-update steps of
`Message.is_valid`. -/
structure MsgMeta where
  device_from : List Char
  device_dest : List Char
  code : List Char
  verb : List Char
  raw_payload : List Char
deriving DecidableEq, Repr

/-- Embeds `Message.is_valid` lines 139–143: learn the controller id from the first
message with a type-`01` endpoint. -/
def update_ctl (st : EvoState) (m : MsgMeta) : EvoState :=
  if st.ctl_id = none then
    if m.device_from.take 2 = cs "01" then { st with ctl_id := some m.device_from }
    else if m.device_dest.take 2 = cs "01" then { st with ctl_id := some m.device_dest }
    else st
  else st

/-- Embeds `Message.is_valid` lines 145–153: while `_num_zones` is unset, learn it
from a ` I` message of code `2309` (hex length / 6) or `000A`
(hex length / 12) sent by the controller directly after a `1F09` sync.
`none` models the uncaught `AssertionError` of a stride mismatch (these
`assert`s sit outside the `try` block). -/
def update_num_zones (st : EvoState) (m : MsgMeta) : Option EvoState :=
  if st.num_zones = none then
    if some m.device_from = st.ctl_id ∧ st.prev_code = some (cs "1F09") then
      if m.code = cs "2309" ∧ m.verb = cs " I" then
        if m.raw_payload.length % 6 = 0 then
          some { st with num_zones := some ((m.raw_payload.length : ℚ) / 6) }
        else none
      else if m.code = cs "000A" ∧ m.verb = cs " I" then
        if m.raw_payload.length % 12 = 0 then
          some { st with num_zones := some ((m.raw_payload.length : ℚ) / 12) }
        else none
      else some st
    else some st
  else some st

/-- Embeds `Message.is_valid` lines 171–173: after a successful parse, remember the
code of the last ` I` message from the controller. -/
def update_prev_code (st : EvoState) (m : MsgMeta) : EvoState :=
  if some m.device_from = st.ctl_id then
    { st with prev_code := if m.verb = cs " I" then some m.code else none }
  else st

/-- The whole of `Message.is_valid` (lines 129–180), with the per-code parser
outcome passed in (`none` models the parser raising the `AssertionError`
that the spec calls `InvalidPayload`, or returning Python `None`).  The
result is `(is_valid, state, payload)`; an outer `none` models the only
uncaught exception (a stride-assert failure in the zone-learning step). -/
def message_is_valid (st : EvoState) (m : MsgMeta)
    (parse_result : Option Payload) : Option (Bool × EvoState × Option Payload) :=
  match update_num_zones (update_ctl st m) m with
  | none => none
  | some st2 =>
    match parse_result with
    | none => some (false, st2, none)
    | some pl => some (true, update_prev_code st2 m, some pl)

/-- The system state directly after the controller `01:158182` broadcast a
`1F09` sync, before the zone count is known. -/
def exEvoState : EvoState :=
  { ctl_id := some (cs "01:158182"), num_zones := none,
    prev_code := some (cs "1F09") }

/-- The message fields of the `30C9` sync-cycle broadcast `exLine30C9`. -/
def exMsg30C9 : MsgMeta :=
  { device_from := cs "01:158182", device_dest := cs "01:158182",
    code := cs "30C9", verb := cs " I", raw_payload := cs "0007D1010864" }

/-- C8: when the per-code parser raises a structural error
(`InvalidPayload`), `Message.is_valid` returns normally — the error does not
propagate to the caller — the message is kept with `payload = None`, and the
message is reported invalid. -/
theorem message_invalid_payload_kept :
    ∀ (st : EvoState) (m : MsgMeta) (st2 : EvoState),
      update_num_zones (update_ctl st m) m = some st2 →
      message_is_valid st m none = some (false, st2, none) := by
  intro st m st2 h
  unfold message_is_valid
  rw [h]

/-- Witness for `message_invalid_payload_kept`: the controller's `30C9`
broadcast whose parser fails structurally. -/
theorem message_invalid_payload_kept_check :
    message_is_valid exEvoState exMsg30C9 none = some (false, exEvoState, none) :=
  message_invalid_payload_kept exEvoState exMsg30C9 exEvoState (by decide)

/-- C9 (amended): while `_num_zones` is unset it is learned from the
first ` I` message from the controller directly after a `1F09` sync, for
code `2309` (hex payload length / 6, i.e. byte length / 3-byte stride) and
for code `000A` (hex length / 12, i.e. byte length / 6-byte stride) only —
a `30C9` message in the same position does not set it — and once set,
`_num_zones` is never changed by a later message. -/
theorem num_zones_learning :
    (∀ (st : EvoState) (m : MsgMeta), st.num_zones = none →
        some m.device_from = st.ctl_id → st.prev_code = some (cs "1F09") →
        m.code = cs "2309" → m.verb = cs " I" → m.raw_payload.length % 6 = 0 →
        update_num_zones st m =
          some { st with num_zones := some ((m.raw_payload.length : ℚ) / 6) }) ∧
      (∀ (st : EvoState) (m : MsgMeta), st.num_zones = none →
        some m.device_from = st.ctl_id → st.prev_code = some (cs "1F09") →
        m.code = cs "000A" → m.verb = cs " I" → m.raw_payload.length % 12 = 0 →
        update_num_zones st m =
          some { st with num_zones := some ((m.raw_payload.length : ℚ) / 12) }) ∧
      (∀ (st : EvoState) (m : MsgMeta), m.code = cs "30C9" →
        update_num_zones st m = some st) ∧
      (∀ (st : EvoState) (m : MsgMeta) (q : ℚ), st.num_zones = some q →
        update_num_zones st m = some st) := by
  refine ⟨?_, ?_, ?_, ?_⟩
  · intro st m h1 h2 h3 h4 h5 h6
    simp [update_num_zones, h1, h2, h3, h4, h5, h6]
  · intro st m h1 h2 h3 h4 h5 h6
    have hne : ¬ (cs "000A" = cs "2309" ∧ m.verb = cs " I") := by
      rintro ⟨h, -⟩; cases h
    simp [update_num_zones, h1, h2, h3, h4, h5, h6, hne]
    intro hc
    exact absurd hc (by decide)
  · intro st m h
    have hne1 : ¬ (m.code = cs "2309" ∧ m.verb = cs " I") := by
      rw [h]; rintro ⟨hc, -⟩; cases hc
    have hne2 : ¬ (m.code = cs "000A" ∧ m.verb = cs " I") := by
      rw [h]; rintro ⟨hc, -⟩; cases hc
    unfold update_num_zones
    split_ifs <;> simp_all
  · intro st m q h
    simp [update_num_zones, h]

/-- Witness for `num_zones_learning`: the `2309` clause applied to a
concrete two-zone sync-cycle message. -/
theorem num_zones_learning_check :
    update_num_zones exEvoState
        { device_from := cs "01:158182", device_dest := cs "01:158182",
          code := cs "2309", verb := cs " I", raw_payload := cs "0007D10107D1" } =
      some { exEvoState with
        num_zones := some (((cs "0007D10107D1").length : ℚ) / 6) } :=
  num_zones_learning.1 exEvoState
    { device_from := cs "01:158182", device_dest := cs "01:158182",
      code := cs "2309", verb := cs " I", raw_payload := cs "0007D10107D1" }
    rfl (by decide) rfl rfl rfl (by decide)

/-- C9 counterexample: a `30C9` ` I` broadcast from the controller
directly after its `1F09` sync — exactly the position the claim says learns
the zone count with stride 3 — leaves `_num_zones` unset (`None`), so it is
not the claimed zone count 2. -/
theorem num_zones_30c9_not_learned :
    (message_is_valid exEvoState exMsg30C9 (some (.arr exPayload30C9))).map
        (fun r => r.2.1.num_zones) = some none ∧
      (none : Option ℚ) ≠ some 2 := by
  constructor
  · rfl
  · intro h; cases h

/-! ## Bind state machine (`ramses_rf.bind_state`, exercised by
`src/tests_rf/test_rf_bindings_fsm.py`) -/

/-- Modelled from the spec: `ramses_rf/bind_state.py` is not among the
sources (only its test is).  Spec §4.7: the states of a bind `Context`. -/
inductive BindPhase where
  | listening | accepting | accepted | boundAccepted | bound
  | offering | offered | confirming | confirmed | unknown
deriving DecidableEq, Repr

/-- Modelled from the spec: a bind `Context`'s state — its current phase,
the `_prev_state` recorded on moving to `UNKNOWN`, and the transmit
counters behind the three-sends rule (spec §4.7). -/
structure BindContext where
  phase : BindPhase
  prev_phase : Option BindPhase
  offers_sent : Nat
  confirms_sent : Nat
deriving DecidableEq, Repr

/-- Modelled from the spec: the two bind error classes (§7),
`BindFlowError` and `BindStateError`. -/
inductive BindErr where
  | flowError
  | stateError
deriving DecidableEq, Repr

/-- Outcome of a `_sent_*` call: the raised error, if any, and the
context's state afterwards. -/
structure SendResult where
  err : Option BindErr
  ctx : BindContext
deriving DecidableEq, Repr

/-- Modelled from the spec: `Context.supplicant(dev)` starts in `OFFERING`
(spec §4.7). -/
def supplicantContext : BindContext :=
  { phase := .offering, prev_phase := none, offers_sent := 0, confirms_sent := 0 }

/-- Modelled from the spec: `Context.respondent(dev)` starts in `LISTENING`
(spec §4.7). -/
def respondentContext : BindContext :=
  { phase := .listening, prev_phase := none, offers_sent := 0, confirms_sent := 0 }

/-- Modelled from the spec: `Context._sent_offer`.  Spec §4.7:
`OFFERING --tx offer--> OFFERED`; the supplicant may send up to three
Offers, a fourth raises `BindFlowError` and the context moves to `UNKNOWN`
recording `_prev_state`; a `_sent_*` in any other state raises
`BindFlowError` likewise; any `_sent_*` after `UNKNOWN` raises
`BindStateError` (state unchanged). -/
def sent_offer (c : BindContext) : SendResult :=
  match c.phase with
  | .unknown => ⟨some .stateError, c⟩
  | .offering =>
    ⟨none, { c with phase := .offered, offers_sent := c.offers_sent + 1 }⟩
  | .offered =>
    if c.offers_sent < 3 then ⟨none, { c with offers_sent := c.offers_sent + 1 }⟩
    else ⟨some .flowError,
      { c with phase := .unknown, prev_phase := some c.phase }⟩
  | _ => ⟨some .flowError, { c with phase := .unknown, prev_phase := some c.phase }⟩

/-- Modelled from the spec: `Context._sent_accept` —
`ACCEPTING --tx accept--> ACCEPTED` only (spec §4.7). -/
def sent_accept (c : BindContext) : SendResult :=
  match c.phase with
  | .unknown => ⟨some .stateError, c⟩
  | .accepting => ⟨none, { c with phase := .accepted }⟩
  | _ => ⟨some .flowError, { c with phase := .unknown, prev_phase := some c.phase }⟩

/-- Modelled from the spec: `Context._sent_confirm` —
`CONFIRMING --tx confirm--> CONFIRMED`, then up to two retransmits, the
third transmit in total reaching `BOUND` (spec §4.7). -/
def sent_confirm (c : BindContext) : SendResult :=
  match c.phase with
  | .unknown => ⟨some .stateError, c⟩
  | .confirming =>
    ⟨none, { c with phase := .confirmed, confirms_sent := c.confirms_sent + 1 }⟩
  | .confirmed =>
    if c.confirms_sent < 3 then
      let ph := if c.confirms_sent + 1 = 3 then BindPhase.bound else BindPhase.confirmed
      ⟨none, { c with confirms_sent := c.confirms_sent + 1, phase := ph }⟩
    else ⟨some .flowError,
      { c with phase := .unknown, prev_phase := some c.phase }⟩
  | _ => ⟨some .flowError, { c with phase := .unknown, prev_phase := some c.phase }⟩

/-- C3: from a fresh supplicant context, three `_sent_offer` calls
succeed (`OFFERING → OFFERED`, then staying `OFFERED`); the fourth raises
`BindFlowError` and moves the context to `UNKNOWN` with `_prev_state`
recording `OFFERED`; and every `_sent_offer` on an `UNKNOWN` context raises
`BindStateError` with the context unchanged. -/
theorem bind_supplicant_offer_limit :
    ((sent_offer supplicantContext).err = none ∧
      (sent_offer supplicantContext).ctx.phase = .offered ∧
      (sent_offer (sent_offer supplicantContext).ctx).err = none ∧
      (sent_offer (sent_offer supplicantContext).ctx).ctx.phase = .offered ∧
      (sent_offer (sent_offer (sent_offer supplicantContext).ctx).ctx).err = none ∧
      (sent_offer (sent_offer (sent_offer supplicantContext).ctx).ctx).ctx.phase
        = .offered ∧
      (sent_offer (sent_offer (sent_offer
          (sent_offer supplicantContext).ctx).ctx).ctx).err = some .flowError ∧
      (sent_offer (sent_offer (sent_offer
          (sent_offer supplicantContext).ctx).ctx).ctx).ctx.phase = .unknown ∧
      (sent_offer (sent_offer (sent_offer
          (sent_offer supplicantContext).ctx).ctx).ctx).ctx.prev_phase
        = some .offered) ∧
      ∀ c : BindContext, c.phase = .unknown →
        (sent_offer c).err = some .stateError ∧ (sent_offer c).ctx = c := by
  refine ⟨by decide, ?_⟩
  intro c h
  unfold sent_offer
  rw [h]
  exact ⟨rfl, rfl⟩

/-- Witness for `bind_supplicant_offer_limit`: its `UNKNOWN` clause applied
to the context reached after the fourth offer. -/
theorem bind_supplicant_offer_limit_check :
    (sent_offer ⟨.unknown, some .offered, 3, 0⟩).err = some .stateError ∧
      (sent_offer ⟨.unknown, some .offered, 3, 0⟩).ctx =
        ⟨.unknown, some .offered, 3, 0⟩ :=
  bind_supplicant_offer_limit.2 ⟨.unknown, some .offered, 3, 0⟩ rfl

end Ramses
